import Mathlib

/-
Verification of the Directus API client layer (backend `lib/directus/client.js`,
`lib/directus/products.js`; the frontend TypeScript variant in
`lib/directus/client.ts` / `products.ts` is line-for-line the same algorithm).

The embedding models JavaScript runtime values with the inductive type `Js`
(mutually inductive with `JsList` for arrays and `JsFields` for the ordered
key/value entries of plain objects).  Machinery that the source delegates to
the platform is modelled by its documented semantics:

* `URLSearchParams.append`/`toString` becomes an ordered list of key/value
  pairs rendered with `application/x-www-form-urlencoded` escaping
  (`formEncode`): unreserved bytes `A-Z a-z 0-9 * - . _` kept, space as `+`,
  every other UTF-8 byte percent-encoded.
* `fetch` is the injectable transport: its behaviour is a `TransportBehavior`
  (either it rejects with a value, or it resolves to a `TransportResponse`
  whose `json()` / `text()` methods themselves either resolve or reject).
  A platform `Response` has `ok` true exactly for 2xx statuses, so `ok` is
  derived from `status` (`respOk`).
* A rejected promise / thrown exception is an `Except.error` carrying the
  thrown value; normal returns are `Except.ok`.
* The token option is either a plain value or a zero-argument provider whose
  single invocation is modelled by its outcome (`TokenSource`).

Every `request` invocation records the transport calls it makes in
`RequestOutcome.calls`, so "no network activity" is expressible.
-/

namespace DirectusClient

mutual
inductive Js where
  | undefined
  | null
  | bool (b : Bool)
  | num (n : Int)
  | str (s : String)
  | arr (elems : JsList)
  | obj (fields : JsFields)
deriving DecidableEq
inductive JsList where
  | nil
  | cons (head : Js) (tail : JsList)
deriving DecidableEq
inductive JsFields where
  | nil
  | cons (key : String) (val : Js) (tail : JsFields)
deriving DecidableEq
end

/-- JavaScript truthiness: `undefined`, `null`, `false`, `0`, and `""` are
falsy; every array and object (even empty) is truthy. -/
def jsTruthy : Js → Bool
  | .undefined => false
  | .null => false
  | .bool b => b
  | .num n => !(n == 0)
  | .str s => !(s == "")
  | .arr _ => true
  | .obj _ => true

/-- Value of the first entry with the given key, `undefined` when absent
(JavaScript objects have unique keys, so first-match is exact). -/
def fieldsGet : JsFields → String → Js
  | .nil, _ => .undefined
  | .cons k v rest, key => if k == key then v else fieldsGet rest key

/-- The `key in obj` test: key presence regardless of the stored value. -/
def fieldsHas : JsFields → String → Bool
  | .nil, _ => false
  | .cons k _ rest, key => k == key || fieldsHas rest key

/-- Property read `v?.k` (and the guarded plain reads of the source): an
object yields the stored value or `undefined`; every other value — including
`null`/`undefined` under optional chaining — yields `undefined`. -/
def jsGet (v : Js) (k : String) : Js :=
  match v with
  | .obj fs => fieldsGet fs k
  | _ => .undefined

/-- The JavaScript `a || b` operator on values. -/
def jsOr (a b : Js) : Js := if jsTruthy a then a else b

/-- Element read `v?.[0]`: first array element, first character of a
non-empty string, or the `"0"` property of an object; otherwise `undefined`. -/
def jsIndexZero : Js → Js
  | .arr (.cons x _) => x
  | .str s => if s == "" then .undefined else .str (String.mk (s.data.take 1))
  | .obj fs => fieldsGet fs "0"
  | _ => .undefined

mutual
/-- JavaScript `String(value)` coercion. -/
def jsToString : Js → String
  | .undefined => "undefined"
  | .null => "null"
  | .bool b => if b then "true" else "false"
  | .num n => toString n
  | .str s => s
  | .arr xs => jsJoinElems xs
  | .obj _ => "[object Object]"

/-- The `array.join(",")` conversion: elements are stringified, except that
`null` and `undefined` render as the empty string. -/
def jsJoinElems : JsList → String
  | .nil => ""
  | .cons x rest =>
      (match x with
        | .undefined => ""
        | .null => ""
        | v => jsToString v) ++
      (match rest with
        | .nil => ""
        | r => "," ++ jsJoinElems r)
end

/-- UTF-8 code units of a code point, as natural numbers. -/
def utf8EncodeChar (n : Nat) : List Nat :=
  if n < 128 then [n]
  else if n < 2048 then [192 + n / 64, 128 + n % 64]
  else if n < 65536 then [224 + n / 4096, 128 + (n / 64) % 64, 128 + n % 64]
  else [240 + n / 262144, 128 + (n / 4096) % 64, 128 + (n / 64) % 64, 128 + n % 64]

def hexDigitChar (n : Nat) : Char := if n < 10 then Char.ofNat (48 + n) else Char.ofNat (55 + n)

def percentByte (n : Nat) : String :=
  "%" ++ String.singleton (hexDigitChar (n / 16)) ++ String.singleton (hexDigitChar (n % 16))

/-- Characters `URLSearchParams` serialization leaves unescaped. -/
def isFormUnreserved (c : Char) : Bool :=
  c.isAlphanum || c == '*' || c == '-' || c == '.' || c == '_'

def formEncodeChar (c : Char) : String :=
  if isFormUnreserved c then String.singleton c
  else if c == ' ' then "+"
  else String.join ((utf8EncodeChar c.toNat).map percentByte)

/-- Percent-encoding used by `URLSearchParams.toString` for each key and each
value (`application/x-www-form-urlencoded`). -/
def formEncode (s : String) : String :=
  s.data.foldl (fun acc c => acc ++ formEncodeChar c) ""

/-- Characters `encodeURIComponent` leaves unescaped. -/
def isUriUnreserved (c : Char) : Bool :=
  c.isAlphanum || c == '-' || c == '_' || c == '.' || c == '!' || c == '~' ||
    c == '*' || c == Char.ofNat 39 || c == '(' || c == ')'

def encodeURIComponent (s : String) : String :=
  s.data.foldl
    (fun acc c =>
      acc ++ (if isUriUnreserved c then String.singleton c
              else String.join ((utf8EncodeChar c.toNat).map percentByte)))
    ""

mutual
/-- Source `appendQueryParam(searchParams, key, value)` (client.js lines
13-35), with `URLSearchParams` modelled as the produced pair list:
`null`/`undefined` skipped, an empty array skipped, a non-empty array joined
with commas into one pair, a plain object recursively flattened under
`key[nestedKey]`, any other value appended as `String(value)`. -/
def appendQueryParam (key : String) : Js → List (String × String)
  | .undefined => []
  | .null => []
  | .arr .nil => []
  | .arr xs => [(key, jsJoinElems xs)]
  | .obj fs => appendNested key fs
  | v => [(key, jsToString v)]

/-- The recursion of `appendQueryParam` over `Object.entries(value)`. -/
def appendNested (key : String) : JsFields → List (String × String)
  | .nil => []
  | .cons k v rest => appendQueryParam (key ++ "[" ++ k ++ "]") v ++ appendNested key rest
end

/-- Pairs appended by `serializeQuery` for the top-level entries, in
insertion order. -/
def serializeParams : JsFields → List (String × String)
  | .nil => []
  | .cons k v rest => appendQueryParam k v ++ serializeParams rest

def encPair (p : String × String) : String := formEncode p.1 ++ "=" ++ formEncode p.2

/-- `URLSearchParams.toString()`: each pair rendered `key=value` with form
encoding, pairs joined by `&`. -/
def toQueryString : List (String × String) → String
  | [] => ""
  | [p] => encPair p
  | p :: q :: rest => encPair p ++ "&" ++ toQueryString (q :: rest)

/-- Source `serializeQuery(query = {})` (client.js lines 37-45); the query
object is given by its ordered entries. -/
def serializeQuery (q : JsFields) : String := toQueryString (serializeParams q)

/-- Prepend one rendered parameter to an already-rendered tail. -/
def appendParam (p rest : String) : String := if rest = "" then p else p ++ "&" ++ rest

/-- Trailing-whitespace-and-leading-whitespace strip, the `baseUrl.trim()`
of the source, modelled over the ASCII whitespace characters. -/
def strTrim (s : String) : String :=
  String.mk (((s.data.dropWhile Char.isWhitespace).reverse.dropWhile Char.isWhitespace).reverse)

/-- Drop the trailing run of `/` characters: `replace(/\/+$/, "")`. -/
def stripTrailingSlashes (s : String) : String :=
  String.mk ((s.data.reverse.dropWhile (fun c => c == '/')).reverse)

/-- Source `sanitizeBaseUrl` (client.js lines 1-7): non-strings and blank
strings give `null`; otherwise trim and strip trailing slashes. -/
def sanitizeBaseUrl : Js → Option String
  | .str s => if strTrim s = "" then none else some (stripTrailingSlashes (strTrim s))
  | _ => none

/-- Substring test on character lists, for `contentType.includes(...)`. -/
def leadsWith : List Char → List Char → Bool
  | _, [] => true
  | [], _ :: _ => false
  | c :: cs, d :: ds => (c == d) && leadsWith cs ds

def hasSub : List Char → List Char → Bool
  | [], sub => sub.isEmpty
  | c :: rest, sub => leadsWith (c :: rest) sub || hasSub rest sub

def strContainsSub (s sub : String) : Bool := hasSub s.data sub.data

/-- Error value type of the client: `createApiError` output (client.js lines
47-63).  `message`, `status` and `code` keep their JavaScript values (the
source stores whatever the `||` chains produce). -/
structure ApiError where
  type : String
  message : Js
  status : Js
  code : Js
  details : Js
  retryable : Bool
deriving DecidableEq

/-- Result envelope of every client operation. -/
structure ApiResult where
  ok : Bool
  data : Js
  meta : Js
  error : Option ApiError
deriving DecidableEq

/-- Source `createFailureResult` (client.js lines 65-72). -/
def createFailureResult (e : ApiError) : ApiResult :=
  { ok := false, data := .null, meta := .null, error := some e }

deriving instance DecidableEq for Except

/-- The token configuration: a plain value, or a zero-argument provider whose
invocation either returns a value or throws. -/
inductive TokenSource where
  | value (v : Js)
  | provider (result : Except Js Js)
deriving DecidableEq

/-- Source `resolveToken` (client.js lines 74-84): falsy tokens resolve to
`null`, a provider is invoked (uncaught if it throws), anything else is
returned as-is. -/
def resolveToken : TokenSource → Except Js Js
  | .value v => if jsTruthy v then .ok v else .ok .null
  | .provider r => r

/-- Behaviour of one transport response: HTTP status, `content-type` header
(`none` models `headers.get` returning `null`), and the outcomes of its
`json()` and `text()` bodies. -/
structure TransportResponse where
  status : Int
  contentType : Option String
  jsonBody : Except Js Js
  textBody : Except Js String
deriving DecidableEq

/-- Behaviour of the injected transport for the call under consideration:
either the returned promise rejects, or it resolves to a response. -/
inductive TransportBehavior where
  | throws (e : Js)
  | returns (resp : TransportResponse)
deriving DecidableEq

/-- Platform invariant of `Response.ok`: status in the 2xx range. -/
def respOk (status : Int) : Bool := decide (200 ≤ status) && decide (status < 300)

/-- The `content-type` string after the source's `|| ""` default. -/
def effectiveContentType (r : TransportResponse) : String :=
  match r.contentType with
  | none => ""
  | some ct => ct

/-- Source `parseResponse` (client.js lines 97-107): JSON content-type uses
`json()`; otherwise the text body is wrapped as `{raw: text}`, empty text
becoming `{}`.  A rejection of the used body reader propagates. -/
def parseResponse (r : TransportResponse) : Except Js Js :=
  if strContainsSub (effectiveContentType r) "application/json" then r.jsonBody
  else
    match r.textBody with
    | .error e => .error e
    | .ok t => .ok (if t == "" then Js.obj .nil else Js.obj (.cons "raw" (.str t) .nil))

/-- Source `mapDirectusError` (client.js lines 109-123). -/
def mapDirectusError (payload : Js) (status : Int) : ApiError :=
  let directusError :=
    jsOr (jsIndexZero (jsGet payload "errors"))
      (jsOr (jsGet payload "error") (jsOr (jsGet payload "errors") payload))
  { type := "api"
  , message := jsOr (jsGet directusError "message")
      (.str ("Directus API request failed with status " ++ toString status ++ "."))
  , status := .num status
  , code := jsOr (jsGet (jsGet directusError "extensions") "code")
      (jsOr (jsGet directusError "code") .null)
  , details := directusError
  , retryable := decide (500 ≤ status) }

/-- Source `mapHttpError` (client.js lines 125-133). -/
def mapHttpError (status : Int) (payload : Js) : ApiError :=
  { type := "http"
  , message := .str ("HTTP request failed with status " ++ toString status ++ ".")
  , status := .num status
  , code := .null
  , details := jsOr payload .null
  , retryable := decide (500 ≤ status) }

/-- Source `unwrapData` (client.js lines 135-141): a plain object containing
a `data` key unwraps to `(payload.data, payload.meta || null)`; any other
payload is itself the data with `null` meta. -/
def unwrapData (payload : Js) : Js × Js :=
  match payload with
  | .obj fs =>
      if fieldsHas fs "data" then (fieldsGet fs "data", jsOr (fieldsGet fs "meta") .null)
      else (payload, .null)
  | _ => (payload, .null)

/-- The body argument of `request`: a JavaScript value or a `FormData`. -/
inductive BodyArg where
  | val (v : Js)
  | formData
deriving DecidableEq

/-- What is handed to the transport as request body: `undefined`, `null` and
`FormData` pass through, anything else is `JSON.stringify`-ed (kept here as
the stringified value). -/
inductive SentBody where
  | omitted
  | nullBody
  | form
  | jsonOf (v : Js)
deriving DecidableEq

def sentBody : BodyArg → SentBody
  | .val .undefined => .omitted
  | .val .null => .nullBody
  | .formData => .form
  | .val v => .jsonOf v

/-- Condition under which the source adds `Content-Type: application/json`. -/
def bodyTriggersJsonHeader : BodyArg → Bool
  | .val .undefined => false
  | .val .null => false
  | .formData => false
  | .val _ => true

/-- Assignment `headers[k] = v` on an ordered header map. -/
def setHeader (hs : List (String × String)) (k v : String) : List (String × String) :=
  if hs.any (fun p => p.1 == k) then hs.map (fun p => if p.1 == k then (k, v) else p)
  else hs ++ [(k, v)]

/-- The object spread `{Accept: ..., ...headers}`. -/
def applyHeaderOverrides (base overrides : List (String × String)) : List (String × String) :=
  overrides.foldl (fun acc p => setHeader acc p.1 p.2) base

/-- Source `buildUrl` (client.js lines 86-95); `path.startsWith("/")` is the
first-character test. -/
def buildUrl (baseUrl path : String) (query : JsFields) : String :=
  let normalizedPath := if leadsWith path.data "/".data then path else "/" ++ path
  let queryString := serializeQuery query
  if queryString = "" then baseUrl ++ normalizedPath
  else baseUrl ++ normalizedPath ++ "?" ++ queryString

/-- One recorded invocation of the injected transport. -/
structure FetchCall where
  url : String
  method : String
  headers : List (String × String)
  body : SentBody
deriving DecidableEq

/-- Outcome of one `request` call: the settled promise (`Except.error` when
an exception escaped the function) and the transport invocations made. -/
structure RequestOutcome where
  result : Except Js ApiResult
  calls : List FetchCall
deriving DecidableEq

/-- The `config` error built when the base URL is missing (client.js lines
148-153). -/
def configApiError : ApiError :=
  { type := "config", message := .str "Directus baseUrl is missing or invalid."
  , status := .null, code := .null, details := .null, retryable := false }

/-- The `network` error built when the transport throws (client.js lines
183-192). -/
def networkApiError (e : Js) : ApiError :=
  { type := "network", message := jsOr (jsGet e "message") (.str "Network request failed.")
  , status := .null, code := .null, details := e, retryable := true }

/-- The `parse` error built when the response body fails to decode
(client.js lines 197-206). -/
def parseApiError (status : Int) (e : Js) : ApiError :=
  { type := "parse", message := .str "Unable to parse API response."
  , status := .num status, code := .null, details := e, retryable := false }

/-- The success envelope of `request` (client.js lines 217-223). -/
def successResult (payload : Js) : ApiResult :=
  { ok := true, data := (unwrapData payload).1, meta := (unwrapData payload).2, error := none }

/-- Header assembly of `request` (client.js lines 156-168): `Accept` plus
caller overrides, `Content-Type` when a JSON-encodable body is present, and
`Authorization` when the resolved token is truthy.  (This is pure, so pulling
it past the token resolution point changes nothing observable.) -/
def requestHeadersFor (body : BodyArg) (headers : List (String × String)) (tok : Js) :
    List (String × String) :=
  let h1 := applyHeaderOverrides [("Accept", "application/json")] headers
  let h2 := if bodyTriggersJsonHeader body then setHeader h1 "Content-Type" "application/json" else h1
  if jsTruthy tok then setHeader h2 "Authorization" ("Bearer " ++ jsToString tok) else h2

/-- The single transport invocation `request` performs once the base URL is
valid and the token has resolved (client.js lines 170-182). -/
def fetchCallFor (base path method : String) (query : JsFields) (body : BodyArg)
    (headers : List (String × String)) (tok : Js) : FetchCall :=
  { url := buildUrl base path query, method := method
  , headers := requestHeadersFor body headers tok, body := sentBody body }

/-- Source `request` (client.js lines 146-224), for a client constructed with
the given raw `baseUrl` and `token` (normalization of the base URL happens at
construction but is pure, so it is folded in here). -/
def request (baseUrl : Js) (token : TokenSource) (transport : TransportBehavior)
    (path : String) (method : String) (query : JsFields) (body : BodyArg)
    (headers : List (String × String)) : RequestOutcome :=
  match sanitizeBaseUrl baseUrl with
  | none => { result := .ok (createFailureResult configApiError), calls := [] }
  | some base =>
      match resolveToken token with
      | .error e => { result := .error e, calls := [] }
      | .ok tok =>
          let call := fetchCallFor base path method query body headers tok
          match transport with
          | .throws e =>
              { result := .ok (createFailureResult (networkApiError e)), calls := [call] }
          | .returns resp =>
              match parseResponse resp with
              | .error e =>
                  { result := .ok (createFailureResult (parseApiError resp.status e))
                  , calls := [call] }
              | .ok payload =>
                  if respOk resp.status then
                    { result := .ok (successResult payload), calls := [call] }
                  else
                    { result := .ok (createFailureResult
                        (if jsTruthy (jsGet payload "errors") || jsTruthy (jsGet payload "error") then
                          mapDirectusError payload resp.status
                        else mapHttpError resp.status payload))
                    , calls := [call] }

/-- Verb helper `get` (client.js line 240). -/
def get (baseUrl : Js) (token : TokenSource) (transport : TransportBehavior)
    (path : String) (query : JsFields) : RequestOutcome :=
  request baseUrl token transport path "GET" query (.val .undefined) []

/-- Verb helper `post` (client.js lines 241-242). -/
def post (baseUrl : Js) (token : TokenSource) (transport : TransportBehavior)
    (path : String) (body : Js) (query : JsFields) : RequestOutcome :=
  request baseUrl token transport path "POST" query (.val body) []

/-- Verb helper `patch` (client.js lines 243-244). -/
def patch (baseUrl : Js) (token : TokenSource) (transport : TransportBehavior)
    (path : String) (body : Js) (query : JsFields) : RequestOutcome :=
  request baseUrl token transport path "PATCH" query (.val body) []

/-- Verb helper `delete` (client.js line 245). -/
def deleteVerb (baseUrl : Js) (token : TokenSource) (transport : TransportBehavior)
    (path : String) (query : JsFields) : RequestOutcome :=
  request baseUrl token transport path "DELETE" query (.val .undefined) []

/-- The `graphql` helper (client.js lines 226-236): a POST to `/graphql`
whose body carries `query`, `variables` and `operationName`. -/
def graphql (baseUrl : Js) (token : TokenSource) (transport : TransportBehavior)
    (queryStr vars operationName : Js) : RequestOutcome :=
  request baseUrl token transport "/graphql" "POST" .nil
    (.val (.obj (.cons "query" queryStr
      (.cons "variables" vars (.cons "operationName" operationName .nil))))) []

/-- Source `toCommaSeparated` (products.js lines 1-7). -/
def toCommaSeparated : Js → Js
  | .arr xs => .str (jsJoinElems xs)
  | v => v

/-- Source `createValidationError` (products.js lines 9-23). -/
def createValidationError (message : String) (details : Js) : ApiResult :=
  { ok := false, data := .null, meta := .null
  , error := some { type := "validation", message := .str message, status := .null
                  , code := .null, details := details, retryable := false } }

/-- Options of `listProducts`/`buildProductsQuery`; absent options are
`undefined`. -/
structure ListOptions where
  filter : Js
  fields : Js
  limit : Js
  page : Js
  search : Js
  sort : Js
deriving DecidableEq

def isNumber : Js → Bool
  | .num _ => true
  | _ => false

def isArray : Js → Bool
  | .arr _ => true
  | _ => false

def consIf (c : Bool) (k : String) (v : Js) (rest : JsFields) : JsFields :=
  if c then .cons k v rest else rest

/-- Source `buildProductsQuery` (products.js lines 25-53): recognized options
are added in the source's insertion order. -/
def buildProductsQuery (o : ListOptions) : JsFields :=
  consIf (jsTruthy o.filter) "filter" o.filter
    (consIf (jsTruthy o.fields) "fields" (toCommaSeparated o.fields)
      (consIf (jsTruthy o.sort) "sort" (toCommaSeparated o.sort)
        (consIf (isNumber o.limit) "limit" o.limit
          (consIf (isNumber o.page) "page" o.page
            (consIf (jsTruthy o.search) "search" o.search .nil)))))

/-- The fixed collection path computed by `createProductsApi`. -/
def collectionPath (collection : String) : String :=
  "/items/" ++ encodeURIComponent collection

/-- Source `listProducts` (products.js lines 58-74): delegate to `get`,
pass failures through, and coerce a non-array success payload to `[]`. -/
def listProducts (baseUrl : Js) (token : TokenSource) (transport : TransportBehavior)
    (collection : String) (o : ListOptions) : RequestOutcome :=
  let out := get baseUrl token transport (collectionPath collection) (buildProductsQuery o)
  match out.result with
  | .error e => { result := .error e, calls := out.calls }
  | .ok r =>
      if r.ok then
        { result := .ok { ok := true
                        , data := if isArray r.data then r.data else .arr .nil
                        , meta := jsOr r.meta .null, error := none }
        , calls := out.calls }
      else { result := .ok r, calls := out.calls }

/-- Source `getProductDetail` (products.js lines 76-88): reject
`undefined`/`null`/`""` identifiers without touching the client, otherwise
GET the URL-encoded item path with the optional `fields` projection. -/
def getProductDetail (baseUrl : Js) (token : TokenSource) (transport : TransportBehavior)
    (collection : String) (productId : Js) (fields : Js) : RequestOutcome :=
  if productId = Js.undefined ∨ productId = Js.null ∨ productId = Js.str "" then
    { result := .ok (createValidationError "A valid productId is required."
        (.obj (.cons "productId" productId .nil)))
    , calls := [] }
  else
    get baseUrl token transport
      (collectionPath collection ++ "/" ++ encodeURIComponent (jsToString productId))
      (if jsTruthy fields then .cons "fields" (toCommaSeparated fields) .nil else .nil)

/-- Source `queryProducts` (products.js lines 90-92): alias of
`listProducts`. -/
def queryProducts (baseUrl : Js) (token : TokenSource) (transport : TransportBehavior)
    (collection : String) (o : ListOptions) : RequestOutcome :=
  listProducts baseUrl token transport collection o

/-- The closed error taxonomy of the specification. -/
def apiErrorTypes : List String :=
  ["api", "config", "http", "network", "not_found", "parse", "validation"]

/-- Consistency of one result envelope: a failure carries null data, null
meta and an error; a success carries no error. -/
def envelopeConsistent (r : ApiResult) : Bool :=
  if r.ok then r.error.isNone
  else r.data == Js.null && r.meta == Js.null && r.error.isSome

/-- Does the (possible) error of a result use one of the seven taxonomy
types? -/
def errorTypeValid (r : ApiResult) : Bool :=
  match r.error with
  | none => true
  | some e => apiErrorTypes.contains e.type

/-- Is a stored `status` value a number that is at least 500? -/
def statusAtLeast500 : Js → Bool
  | .num n => decide (500 ≤ n)
  | _ => false

/-- Scalar values of the query model: everything the serializer stringifies
directly (not nullish, not an array, not an object). -/
def isScalar : Js → Bool
  | .bool _ => true
  | .num _ => true
  | .str _ => true
  | _ => false

/-- Concatenation of entry lists. -/
def fieldsAppend : JsFields → JsFields → JsFields
  | .nil, b => b
  | .cons k v rest, b => .cons k v (fieldsAppend rest b)

/-- Rewrite every key `k1` of the entries to the composite key `k[k1]`. -/
def bracketFields (k : String) : JsFields → JsFields
  | .nil => .nil
  | .cons k1 v rest => .cons (k ++ "[" ++ k1 ++ "]") v (bracketFields k rest)

/-- Every settled (non-thrown) outcome of `request` is one of: the config
failure, a network failure, a parse failure, a mapped Directus `api` failure,
a mapped `http` failure, or the success envelope of some payload. -/
theorem request_ok_shape
    (baseUrl : Js) (token : TokenSource) (transport : TransportBehavior)
    (path method : String) (query : JsFields) (body : BodyArg)
    (headers : List (String × String)) (r : ApiResult)
    (h : (request baseUrl token transport path method query body headers).result = .ok r) :
    r = createFailureResult configApiError ∨
    (∃ e, r = createFailureResult (networkApiError e)) ∨
    (∃ status e, r = createFailureResult (parseApiError status e)) ∨
    (∃ payload status, r = createFailureResult (mapDirectusError payload status)) ∨
    (∃ payload status, r = createFailureResult (mapHttpError status payload)) ∨
    (∃ payload, r = successResult payload) := by
  cases hbu : sanitizeBaseUrl baseUrl with
  | none =>
      left
      simp [request, hbu] at h
      exact h.symm
  | some base =>
      cases htk : resolveToken token with
      | error e => simp [request, hbu, htk] at h
      | ok tok =>
          cases transport with
          | throws e =>
              right; left
              refine ⟨e, ?_⟩
              simp [request, hbu, htk] at h
              exact h.symm
          | returns resp =>
              cases hpr : parseResponse resp with
              | error e =>
                  right; right; left
                  refine ⟨resp.status, e, ?_⟩
                  simp [request, hbu, htk, hpr] at h
                  exact h.symm
              | ok payload =>
                  by_cases hok : respOk resp.status = true
                  · right; right; right; right; right
                    refine ⟨payload, ?_⟩
                    simp [request, hbu, htk, hpr, hok] at h
                    exact h.symm
                  · rw [Bool.not_eq_true] at hok
                    by_cases hde : (jsTruthy (jsGet payload "errors") || jsTruthy (jsGet payload "error")) = true
                    · right; right; right; left
                      refine ⟨payload, resp.status, ?_⟩
                      simp [request, hbu, htk, hpr, hok, hde] at h
                      exact h.symm
                    · rw [Bool.not_eq_true] at hde
                      right; right; right; right; left
                      refine ⟨payload, resp.status, ?_⟩
                      simp [request, hbu, htk, hpr, hok, hde] at h
                      exact h.symm

theorem envelopeConsistent_failure (e : ApiError) :
    envelopeConsistent (createFailureResult e) = true := by
  simp [envelopeConsistent, createFailureResult]

/-- C1 (amended): for every settled result of `request` (hence of every verb
helper), of `graphql`, of `listProducts`/`queryProducts` and of
`getProductDetail`, the envelope is consistent: an `ok:false` result has null
`data`, null `meta` and a non-null `error`, and an `ok:true` result has a
null `error`.  (The original claim further required non-null `data` on
success; `C1_counterexample` shows a 2xx JSON body `null` yields `ok:true`
with `data:null`, so that part is dropped.) -/
theorem C1_envelope_exclusivity :
    (∀ baseUrl token transport path method query body headers r,
      (request baseUrl token transport path method query body headers).result = .ok r →
      envelopeConsistent r = true) ∧
    (∀ baseUrl token transport collection o r,
      (listProducts baseUrl token transport collection o).result = .ok r →
      envelopeConsistent r = true) ∧
    (∀ baseUrl token transport collection productId fields r,
      (getProductDetail baseUrl token transport collection productId fields).result = .ok r →
      envelopeConsistent r = true) ∧
    (∀ baseUrl token transport qs vs opName r,
      (graphql baseUrl token transport qs vs opName).result = .ok r →
      envelopeConsistent r = true) := by
  have hreq : ∀ baseUrl token transport path method query body headers r,
      (request baseUrl token transport path method query body headers).result = .ok r →
      envelopeConsistent r = true := by
    intro baseUrl token transport path method query body headers r h
    rcases request_ok_shape baseUrl token transport path method query body headers r h with
      h1 | ⟨e, h1⟩ | ⟨st, e, h1⟩ | ⟨p, st, h1⟩ | ⟨p, st, h1⟩ | ⟨p, h1⟩ <;> subst h1
    · exact envelopeConsistent_failure _
    · exact envelopeConsistent_failure _
    · exact envelopeConsistent_failure _
    · exact envelopeConsistent_failure _
    · exact envelopeConsistent_failure _
    · simp [envelopeConsistent, successResult]
  refine ⟨hreq, ?_, ?_, ?_⟩
  · intro baseUrl token transport collection o r h
    cases hg : (get baseUrl token transport (collectionPath collection) (buildProductsQuery o)).result with
    | error e => simp [listProducts, hg] at h
    | ok cr =>
        by_cases hcr : cr.ok = true
        · simp [listProducts, hg, hcr] at h
          subst h
          simp [envelopeConsistent]
        · rw [Bool.not_eq_true] at hcr
          simp [listProducts, hg, hcr] at h
          subst h
          exact hreq _ _ _ _ _ _ _ _ cr (by simpa [get] using hg)
  · intro baseUrl token transport collection productId fields r h
    by_cases hv : productId = Js.undefined ∨ productId = Js.null ∨ productId = Js.str ""
    · rw [getProductDetail, if_pos hv] at h
      simp at h
      subst h
      exact envelopeConsistent_failure _
    · rw [getProductDetail, if_neg hv] at h
      exact hreq _ _ _ _ _ _ _ _ r (by simpa [get] using h)
  · intro baseUrl token transport qs vs opName r h
    exact hreq _ _ _ _ _ _ _ _ r (by simpa [graphql] using h)

theorem C1_envelope_exclusivity_witness :
    envelopeConsistent { ok := true, data := Js.null, meta := Js.null, error := none } = true :=
  C1_envelope_exclusivity.1 (Js.str "http://host") (.value Js.null)
    (.returns { status := 200, contentType := some "application/json"
              , jsonBody := .ok Js.null, textBody := .ok "" })
    "/items/Products" "GET" .nil (.val .undefined) []
    { ok := true, data := Js.null, meta := Js.null, error := none } rfl

/-- C1, counterexample to the original claim: a 2xx response whose JSON body
is `null` yields a success whose `data` (and `meta`) are null while `error`
is also null, so neither "non-null data" nor "non-null error" holds. -/
theorem C1_counterexample :
    (request (Js.str "http://host") (.value Js.null)
      (.returns { status := 200, contentType := some "application/json"
                , jsonBody := .ok Js.null, textBody := .ok "" })
      "/items/Products" "GET" .nil (.val .undefined) []).result =
    .ok { ok := true, data := Js.null, meta := Js.null, error := none } := rfl

/-- C2 (amended): provided the token resolver does not itself throw, every
`request` (hence every verb helper and `graphql`) settles with a result —
no exception escapes — and any error it carries uses one of the seven
taxonomy types.  (The original claim quantified over every behaviour of the
token resolver; `C2_counterexample` shows a throwing resolver escapes.) -/
theorem C2_total_and_taxonomy :
    ∀ baseUrl token transport path method query body headers,
      (∃ tok, resolveToken token = .ok tok) →
      ∃ r, (request baseUrl token transport path method query body headers).result = .ok r ∧
        errorTypeValid r = true := by
  intro baseUrl token transport path method query body headers htok
  obtain ⟨tok, htk⟩ := htok
  cases hbu : sanitizeBaseUrl baseUrl with
  | none => exact ⟨createFailureResult configApiError, by simp [request, hbu], rfl⟩
  | some base =>
      cases transport with
      | throws e =>
          exact ⟨createFailureResult (networkApiError e), by simp [request, hbu, htk], rfl⟩
      | returns resp =>
          cases hpr : parseResponse resp with
          | error e =>
              exact ⟨createFailureResult (parseApiError resp.status e),
                by simp [request, hbu, htk, hpr], rfl⟩
          | ok payload =>
              by_cases hok : respOk resp.status = true
              · exact ⟨successResult payload, by simp [request, hbu, htk, hpr, hok], rfl⟩
              · rw [Bool.not_eq_true] at hok
                by_cases hde : (jsTruthy (jsGet payload "errors") || jsTruthy (jsGet payload "error")) = true
                · exact ⟨createFailureResult (mapDirectusError payload resp.status),
                    by simp [request, hbu, htk, hpr, hok, hde], rfl⟩
                · rw [Bool.not_eq_true] at hde
                  exact ⟨createFailureResult (mapHttpError resp.status payload),
                    by simp [request, hbu, htk, hpr, hok, hde], rfl⟩

theorem C2_total_and_taxonomy_witness :
    ∃ r, (request (Js.str "http://host") (.value Js.null)
      (.returns { status := 200, contentType := some "application/json"
                , jsonBody := .ok (.obj .nil), textBody := .ok "" })
      "/items/Products" "GET" .nil (.val .undefined) []).result = .ok r ∧
      errorTypeValid r = true :=
  C2_total_and_taxonomy (Js.str "http://host") (.value Js.null)
    (.returns { status := 200, contentType := some "application/json"
              , jsonBody := .ok (.obj .nil), textBody := .ok "" })
    "/items/Products" "GET" .nil (.val .undefined) [] ⟨Js.null, rfl⟩

/-- C2, counterexample to the original claim: when the token provider throws,
the exception escapes `request` (the promise rejects) instead of becoming an
`ApiError` result. -/
theorem C2_counterexample :
    (request (Js.str "http://host") (.provider (.error (Js.str "token boom")))
      (.returns { status := 200, contentType := some "application/json"
                , jsonBody := .ok (.obj .nil), textBody := .ok "" })
      "/items/Products" "GET" .nil (.val .undefined) []).result =
    .error (Js.str "token boom") := rfl

/-- C7 (amended): for every failure that `request` settles with, the
`retryable` flag is true exactly when the failure is a `network` failure, or
an `api` or `http` failure whose status is at least 500.  (The original
claim said any failure with a 5xx status is retryable regardless of type;
`C7_counterexample` shows a `parse` failure with status 500 is not.) -/
theorem C7_retryable_rule :
    ∀ baseUrl token transport path method query body headers r e,
      (request baseUrl token transport path method query body headers).result = .ok r →
      r.error = some e →
      e.retryable = (e.type == "network" ||
        ((e.type == "api" || e.type == "http") && statusAtLeast500 e.status)) := by
  intro baseUrl token transport path method query body headers r e h he
  rcases request_ok_shape baseUrl token transport path method query body headers r h with
    h1 | ⟨e0, h1⟩ | ⟨st, e0, h1⟩ | ⟨p, st, h1⟩ | ⟨p, st, h1⟩ | ⟨p, h1⟩ <;> subst h1
  · simp only [createFailureResult, Option.some.injEq] at he
    subst he; rfl
  · simp only [createFailureResult, Option.some.injEq] at he
    subst he; rfl
  · simp only [createFailureResult, Option.some.injEq] at he
    subst he; rfl
  · simp only [createFailureResult, Option.some.injEq] at he
    subst he; rfl
  · simp only [createFailureResult, Option.some.injEq] at he
    subst he; rfl
  · simp [successResult] at he

theorem C7_retryable_rule_witness :
    (networkApiError Js.null).retryable = ((networkApiError Js.null).type == "network" ||
      (((networkApiError Js.null).type == "api" || (networkApiError Js.null).type == "http") &&
        statusAtLeast500 (networkApiError Js.null).status)) :=
  C7_retryable_rule (Js.str "http://host") (.value Js.null) (.throws Js.null)
    "/p" "GET" .nil (.val .undefined) [] (createFailureResult (networkApiError Js.null))
    (networkApiError Js.null) rfl rfl

def isPlainObject : Js → Bool
  | .obj _ => true
  | _ => false

def hasDataKey : Js → Bool
  | .obj fs => fieldsHas fs "data"
  | _ => false

/-- C3: the error-classification table.  For a request with a valid base URL
and a resolving token: a transport rejection gives a `network` failure with
`retryable:true`; a non-2xx response with a structured error shape (truthy
`errors` or `error` field, the spec's parenthetical) gives an `api` failure
carrying the response status, and its `code` comes from the first error
entry's `extensions.code` when that entry and code are present; a non-2xx
response without such a shape gives an `http` failure; a 2xx response whose
content-type is not JSON is a success whose data is the text wrapped as
`{raw: text}`, empty text becoming `{}`. -/
theorem C3_error_classification :
    ∀ baseUrl base token tok path method query body headers,
      sanitizeBaseUrl baseUrl = some base →
      resolveToken token = .ok tok →
      ((∀ e, (request baseUrl token (.throws e) path method query body headers).result =
          .ok (createFailureResult (networkApiError e)) ∧
          (networkApiError e).type = "network" ∧ (networkApiError e).retryable = true) ∧
       (∀ resp payload, parseResponse resp = .ok payload → respOk resp.status = false →
          (jsTruthy (jsGet payload "errors") || jsTruthy (jsGet payload "error")) = true →
          (request baseUrl token (.returns resp) path method query body headers).result =
            .ok (createFailureResult (mapDirectusError payload resp.status)) ∧
          (mapDirectusError payload resp.status).type = "api" ∧
          (mapDirectusError payload resp.status).status = .num resp.status ∧
          (∀ e0, jsIndexZero (jsGet payload "errors") = e0 → jsTruthy e0 = true →
            jsTruthy (jsGet (jsGet e0 "extensions") "code") = true →
            (mapDirectusError payload resp.status).code = jsGet (jsGet e0 "extensions") "code")) ∧
       (∀ resp payload, parseResponse resp = .ok payload → respOk resp.status = false →
          (jsTruthy (jsGet payload "errors") || jsTruthy (jsGet payload "error")) = false →
          (request baseUrl token (.returns resp) path method query body headers).result =
            .ok (createFailureResult (mapHttpError resp.status payload)) ∧
          (mapHttpError resp.status payload).type = "http") ∧
       (∀ resp t, strContainsSub (effectiveContentType resp) "application/json" = false →
          resp.textBody = .ok t → respOk resp.status = true →
          (request baseUrl token (.returns resp) path method query body headers).result =
            .ok { ok := true
                , data := if t == "" then Js.obj .nil else Js.obj (.cons "raw" (.str t) .nil)
                , meta := Js.null, error := none })) := by
  intro baseUrl base token tok path method query body headers hbu htk
  refine ⟨?_, ?_, ?_, ?_⟩
  · intro e
    exact ⟨by simp [request, hbu, htk], rfl, rfl⟩
  · intro resp payload hpr hok hde
    refine ⟨by simp [request, hbu, htk, hpr, hok, hde], rfl, rfl, ?_⟩
    intro e0 he0 ht0 htc
    subst he0
    simp [mapDirectusError, jsOr, ht0, htc]
  · intro resp payload hpr hok hde
    exact ⟨by simp [request, hbu, htk, hpr, hok, hde], rfl⟩
  · intro resp t hct htb hok
    have hpr : parseResponse resp =
        .ok (if t == "" then Js.obj .nil else Js.obj (.cons "raw" (.str t) .nil)) := by
      simp [parseResponse, hct, htb]
    by_cases ht : t = ""
    · subst ht
      simp [request, hbu, htk, hpr, hok, successResult, unwrapData, fieldsHas]
    · have ht2 : (t == "") = false := by simpa using ht
      simp [request, hbu, htk, hpr, hok, ht2, successResult, unwrapData, fieldsHas]

theorem C3_error_classification_witness :
    (request (Js.str "http://10.115.3.12:8055") (.value Js.null)
      (.returns { status := 400, contentType := some "application/json"
                , jsonBody := .ok (.obj (.cons "errors" (.arr (.cons (.obj (.cons "message" (.str "Invalid query")
                    (.cons "extensions" (.obj (.cons "code" (.str "FAILED_VALIDATION") .nil)) .nil))) .nil)) .nil))
                , textBody := .ok "" })
      "/items/Products" "GET" .nil (.val .undefined) []).result =
    .ok (createFailureResult (mapDirectusError
      (.obj (.cons "errors" (.arr (.cons (.obj (.cons "message" (.str "Invalid query")
        (.cons "extensions" (.obj (.cons "code" (.str "FAILED_VALIDATION") .nil)) .nil))) .nil)) .nil)) 400)) :=
  ((C3_error_classification (Js.str "http://10.115.3.12:8055") "http://10.115.3.12:8055"
    (.value Js.null) Js.null "/items/Products" "GET" .nil (.val .undefined) [] rfl rfl).2.1
    { status := 400, contentType := some "application/json"
    , jsonBody := .ok (.obj (.cons "errors" (.arr (.cons (.obj (.cons "message" (.str "Invalid query")
        (.cons "extensions" (.obj (.cons "code" (.str "FAILED_VALIDATION") .nil)) .nil))) .nil)) .nil))
    , textBody := .ok "" }
    (.obj (.cons "errors" (.arr (.cons (.obj (.cons "message" (.str "Invalid query")
      (.cons "extensions" (.obj (.cons "code" (.str "FAILED_VALIDATION") .nil)) .nil))) .nil)) .nil))
    rfl rfl rfl).1

/-- C4 (amended): a successfully parsed 2xx payload that is a plain object
containing a `data` key unwraps to `data := payload.data` with
`meta := payload.meta` when that value is truthy and `null` otherwise (the
source uses `||`, so falsy meta values such as `0` or `""` are replaced by
null — see `C4_counterexample`); any other payload becomes `data` wholesale
with null `meta`. -/
theorem C4_unwrap_rule :
    ∀ baseUrl base token tok path method query body headers resp payload,
      sanitizeBaseUrl baseUrl = some base →
      resolveToken token = .ok tok →
      parseResponse resp = .ok payload →
      respOk resp.status = true →
      ((∀ fs, payload = .obj fs → fieldsHas fs "data" = true →
        (request baseUrl token (.returns resp) path method query body headers).result =
          .ok { ok := true, data := fieldsGet fs "data"
              , meta := if jsTruthy (fieldsGet fs "meta") then fieldsGet fs "meta" else Js.null
              , error := none }) ∧
       ((isPlainObject payload && hasDataKey payload) = false →
        (request baseUrl token (.returns resp) path method query body headers).result =
          .ok { ok := true, data := payload, meta := Js.null, error := none })) := by
  intro baseUrl base token tok path method query body headers resp payload hbu htk hpr hok
  constructor
  · intro fs hp hd
    subst hp
    simp [request, hbu, htk, hpr, hok, successResult, unwrapData, hd, jsOr]
  · intro hnd
    cases payload with
    | obj fs =>
        simp [isPlainObject, hasDataKey] at hnd
        simp [request, hbu, htk, hpr, hok, successResult, unwrapData, hnd]
    | undefined => simp [request, hbu, htk, hpr, hok, successResult, unwrapData]
    | null => simp [request, hbu, htk, hpr, hok, successResult, unwrapData]
    | bool b => simp [request, hbu, htk, hpr, hok, successResult, unwrapData]
    | num n => simp [request, hbu, htk, hpr, hok, successResult, unwrapData]
    | str s => simp [request, hbu, htk, hpr, hok, successResult, unwrapData]
    | arr xs => simp [request, hbu, htk, hpr, hok, successResult, unwrapData]

theorem C4_unwrap_rule_witness :
    (request (Js.str "http://host") (.value Js.null)
      (.returns { status := 200, contentType := some "application/json"
                , jsonBody := .ok (.obj (.cons "data" (.str "x")
                    (.cons "meta" (.obj (.cons "filter_count" (.num 1) .nil)) .nil)))
                , textBody := .ok "" })
      "/p" "GET" .nil (.val .undefined) []).result =
    .ok { ok := true, data := fieldsGet (.cons "data" (.str "x")
            (.cons "meta" (.obj (.cons "filter_count" (.num 1) .nil)) .nil)) "data"
        , meta := if jsTruthy (fieldsGet (.cons "data" (.str "x")
              (.cons "meta" (.obj (.cons "filter_count" (.num 1) .nil)) .nil)) "meta")
            then fieldsGet (.cons "data" (.str "x")
              (.cons "meta" (.obj (.cons "filter_count" (.num 1) .nil)) .nil)) "meta" else Js.null
        , error := none } :=
  (C4_unwrap_rule (Js.str "http://host") "http://host" (.value Js.null) Js.null
    "/p" "GET" .nil (.val .undefined) []
    { status := 200, contentType := some "application/json"
    , jsonBody := .ok (.obj (.cons "data" (.str "x")
        (.cons "meta" (.obj (.cons "filter_count" (.num 1) .nil)) .nil)))
    , textBody := .ok "" }
    (.obj (.cons "data" (.str "x") (.cons "meta" (.obj (.cons "filter_count" (.num 1) .nil)) .nil)))
    rfl rfl rfl rfl).1
    (.cons "data" (.str "x") (.cons "meta" (.obj (.cons "filter_count" (.num 1) .nil)) .nil))
    rfl rfl

/-- C4, counterexample to the original claim: a 2xx payload
`{data:"x", meta:0}` yields `meta:null` — the falsy-but-non-null meta `0` is
not preserved, because the source uses `meta || null` rather than
`meta ?? null`. -/
theorem C4_counterexample :
    ((request (Js.str "http://host") (.value Js.null)
      (.returns { status := 200, contentType := some "application/json"
                , jsonBody := .ok (.obj (.cons "data" (.str "x") (.cons "meta" (.num 0) .nil)))
                , textBody := .ok "" })
      "/p" "GET" .nil (.val .undefined) []).result =
    .ok { ok := true, data := Js.str "x", meta := Js.null, error := none }) ∧
    Js.num 0 ≠ Js.null :=
  ⟨rfl, by decide⟩

/-- C7, counterexample to the original claim: a 500 response whose JSON body
fails to decode produces a `parse` failure with status 500 whose `retryable`
is false, although the claim requires every 5xx failure to be retryable. -/
theorem C7_counterexample :
    ((request (Js.str "http://host") (.value Js.null)
      (.returns { status := 500, contentType := some "application/json"
                , jsonBody := .error (.str "bad json"), textBody := .ok "" })
      "/p" "GET" .nil (.val .undefined) []).result =
    .ok (createFailureResult (parseApiError 500 (.str "bad json")))) ∧
    (parseApiError 500 (.str "bad json")).retryable = false ∧
    statusAtLeast500 (parseApiError 500 (.str "bad json")).status = true :=
  ⟨rfl, rfl, rfl⟩

/-- C10 (amended): a non-2xx payload whose `errors` field is truthy but
yields no truthy first entry is still classified `api` rather than `http`;
and when additionally the payload has no truthy `error` field and the
`errors` value itself supplies no truthy `message`, `extensions.code` or
`code`, the message falls back to the generic one and the code is null.
(The original claim promised the fallback message and null code from the
empty-first-entry condition alone; `C10_counterexample` shows a truthy
`error` field alongside `errors:[]` supplies the message and code.) -/
theorem C10_empty_errors_classification :
    ∀ baseUrl base token tok path method query body headers resp payload,
      sanitizeBaseUrl baseUrl = some base →
      resolveToken token = .ok tok →
      parseResponse resp = .ok payload →
      respOk resp.status = false →
      jsTruthy (jsGet payload "errors") = true →
      jsTruthy (jsIndexZero (jsGet payload "errors")) = false →
      ((request baseUrl token (.returns resp) path method query body headers).result =
        .ok (createFailureResult (mapDirectusError payload resp.status)) ∧
      (mapDirectusError payload resp.status).type = "api" ∧
      (jsTruthy (jsGet payload "error") = false →
       jsTruthy (jsGet (jsGet payload "errors") "message") = false →
       jsTruthy (jsGet (jsGet (jsGet payload "errors") "extensions") "code") = false →
       jsTruthy (jsGet (jsGet payload "errors") "code") = false →
         (mapDirectusError payload resp.status).message =
           .str ("Directus API request failed with status " ++ toString resp.status ++ ".") ∧
         (mapDirectusError payload resp.status).code = Js.null)) := by
  intro baseUrl base token tok path method query body headers resp payload hbu htk hpr hok herr h0
  have hde : (jsTruthy (jsGet payload "errors") || jsTruthy (jsGet payload "error")) = true := by
    simp [herr]
  refine ⟨by simp [request, hbu, htk, hpr, hok, hde], rfl, ?_⟩
  intro herrF hmsg hext hcode
  constructor
  · simp [mapDirectusError, jsOr, h0, herrF, herr, hmsg]
  · simp [mapDirectusError, jsOr, h0, herrF, herr, hext, hcode]

theorem C10_empty_errors_classification_witness :
    (mapDirectusError (.obj (.cons "errors" (.arr .nil) .nil)) 400).message =
      .str "Directus API request failed with status 400." ∧
    (mapDirectusError (.obj (.cons "errors" (.arr .nil) .nil)) 400).code = Js.null :=
  (C10_empty_errors_classification (Js.str "http://host") "http://host"
    (.value Js.null) Js.null "/p" "GET" .nil (.val .undefined) []
    { status := 400, contentType := some "application/json"
    , jsonBody := .ok (.obj (.cons "errors" (.arr .nil) .nil)), textBody := .ok "" }
    (.obj (.cons "errors" (.arr .nil) .nil))
    rfl rfl rfl rfl rfl rfl).2.2 rfl rfl rfl rfl

/-- C10, counterexample to the original claim: with `errors:[]` (truthy, no
first entry) but a truthy `error` field `{message:"boom",
extensions:{code:"BAD"}}`, the failure is `api` as claimed, yet the message
is "boom" and the code is "BAD" — not the generic fallback and null code the
claim promises. -/
theorem C10_counterexample :
    jsTruthy (jsGet (Js.obj (.cons "errors" (.arr .nil)
      (.cons "error" (.obj (.cons "message" (.str "boom")
        (.cons "extensions" (.obj (.cons "code" (.str "BAD") .nil)) .nil))) .nil))) "errors") = true ∧
    jsIndexZero (jsGet (Js.obj (.cons "errors" (.arr .nil)
      (.cons "error" (.obj (.cons "message" (.str "boom")
        (.cons "extensions" (.obj (.cons "code" (.str "BAD") .nil)) .nil))) .nil))) "errors") = Js.undefined ∧
    (request (Js.str "http://host") (.value Js.null)
      (.returns { status := 400, contentType := some "application/json"
                , jsonBody := .ok (.obj (.cons "errors" (.arr .nil)
                    (.cons "error" (.obj (.cons "message" (.str "boom")
                      (.cons "extensions" (.obj (.cons "code" (.str "BAD") .nil)) .nil))) .nil)))
                , textBody := .ok "" })
      "/p" "GET" .nil (.val .undefined) []).result =
    .ok (createFailureResult
      { type := "api", message := .str "boom", status := .num 400, code := .str "BAD"
      , details := .obj (.cons "message" (.str "boom")
          (.cons "extensions" (.obj (.cons "code" (.str "BAD") .nil)) .nil))
      , retryable := false }) :=
  ⟨rfl, rfl, rfl⟩

/-- C5: for a client whose base URL is absent (any non-string value, in
particular `undefined`) or blank (empty or whitespace-only string), every
`request` — and hence every verb helper — immediately settles with the
`config` failure and performs zero transport invocations, for every token,
transport behaviour, path, method, query, body and headers. -/
theorem C5_config_short_circuit :
    ∀ baseUrl token transport path method query body headers,
      (∀ s, baseUrl = Js.str s → strTrim s = "") →
      request baseUrl token transport path method query body headers =
        { result := .ok (createFailureResult configApiError), calls := [] } := by
  intro baseUrl token transport path method query body headers hblank
  have hbu : sanitizeBaseUrl baseUrl = none := by
    cases baseUrl with
    | str s => simp [sanitizeBaseUrl, hblank s rfl]
    | undefined => rfl
    | null => rfl
    | bool b => rfl
    | num n => rfl
    | arr xs => rfl
    | obj fs => rfl
  simp [request, hbu]

theorem C5_config_short_circuit_witness :
    request (Js.str "   ") (.value (.str "token")) (.throws Js.null)
      "/items/Products" "GET" .nil (.val .undefined) [] =
      { result := .ok (createFailureResult configApiError), calls := [] } :=
  C5_config_short_circuit (Js.str "   ") (.value (.str "token")) (.throws Js.null)
    "/items/Products" "GET" .nil (.val .undefined) []
    (fun s h => by injection h with h2; subst h2; rfl)

/-- With a valid base URL and a resolving token, `request` performs exactly
one transport invocation, with the assembled URL and the given method. -/
theorem request_calls_single :
    ∀ baseUrl base token tok transport path method query body headers,
      sanitizeBaseUrl baseUrl = some base →
      resolveToken token = .ok tok →
      (request baseUrl token transport path method query body headers).calls =
        [fetchCallFor base path method query body headers tok] := by
  intro baseUrl base token tok transport path method query body headers hbu htk
  cases transport with
  | throws e => simp [request, hbu, htk]
  | returns resp =>
      cases hpr : parseResponse resp with
      | error e => simp [request, hbu, htk, hpr]
      | ok payload =>
          by_cases hok : respOk resp.status = true
          · simp [request, hbu, htk, hpr, hok]
          · rw [Bool.not_eq_true] at hok
            by_cases hde : (jsTruthy (jsGet payload "errors") || jsTruthy (jsGet payload "error")) = true
            · simp [request, hbu, htk, hpr, hok, hde]
            · rw [Bool.not_eq_true] at hde
              simp [request, hbu, htk, hpr, hok, hde]

/-- C8: when the underlying collection GET succeeds, `listProducts` (and its
alias `queryProducts`) succeeds with `data` equal to the client's unwrapped
array payload — order preserved — and with `data := []` when that payload is
not an array; the returned `data` is always an array. -/
theorem C8_listProducts_array :
    ∀ baseUrl token transport collection o cr,
      (get baseUrl token transport (collectionPath collection) (buildProductsQuery o)).result = .ok cr →
      cr.ok = true →
      ∃ r, (listProducts baseUrl token transport collection o).result = .ok r ∧
        r.ok = true ∧
        (∀ xs, cr.data = Js.arr xs → r.data = Js.arr xs) ∧
        (isArray cr.data = false → r.data = Js.arr .nil) ∧
        isArray r.data = true := by
  intro baseUrl token transport collection o cr hg hok
  refine ⟨{ ok := true, data := if isArray cr.data then cr.data else .arr .nil
          , meta := jsOr cr.meta .null, error := none }, ?_, rfl, ?_, ?_, ?_⟩
  · simp [listProducts, hg, hok]
  · intro xs hx
    simp [hx, isArray]
  · intro hna
    simp [hna]
  · cases hd : cr.data <;> simp [hd, isArray]

theorem C8_listProducts_array_witness :
    ∃ r, (listProducts (Js.str "http://host") (.value Js.null)
      (.returns { status := 200, contentType := some "application/json"
                , jsonBody := .ok (.obj (.cons "data" (.arr (.cons (.num 1) .nil)) .nil))
                , textBody := .ok "" })
      "Products" { filter := .undefined, fields := .undefined, limit := .undefined
                 , page := .undefined, search := .undefined, sort := .undefined }).result = .ok r ∧
      r.ok = true ∧
      (∀ xs, (successResult (.obj (.cons "data" (.arr (.cons (.num 1) .nil)) .nil))).data = Js.arr xs →
        r.data = Js.arr xs) ∧
      (isArray (successResult (.obj (.cons "data" (.arr (.cons (.num 1) .nil)) .nil))).data = false →
        r.data = Js.arr .nil) ∧
      isArray r.data = true :=
  C8_listProducts_array (Js.str "http://host") (.value Js.null)
    (.returns { status := 200, contentType := some "application/json"
              , jsonBody := .ok (.obj (.cons "data" (.arr (.cons (.num 1) .nil)) .nil))
              , textBody := .ok "" })
    "Products" { filter := .undefined, fields := .undefined, limit := .undefined
               , page := .undefined, search := .undefined, sort := .undefined }
    (successResult (.obj (.cons "data" (.arr (.cons (.num 1) .nil)) .nil))) rfl rfl

/-- C9: `getProductDetail` with an absent (`undefined`/`null`) or empty
(`""`) identifier settles immediately with the `validation` failure and
performs no client-core call and no transport invocation (`calls = []`);
with any other identifier it delegates to the client core's `get` on
`<collectionPath>/<urlEncodedId>` with the optional `fields` projection, and
— when the base URL is valid and the token resolves — issues exactly one
transport call, a GET to that URL. -/
theorem C9_getProductDetail_validation :
    (∀ baseUrl token transport collection productId fields,
      (productId = Js.undefined ∨ productId = Js.null ∨ productId = Js.str "") →
      getProductDetail baseUrl token transport collection productId fields =
        { result := .ok (createValidationError "A valid productId is required."
            (.obj (.cons "productId" productId .nil))), calls := [] }) ∧
    (∀ baseUrl token transport collection productId fields,
      ¬ (productId = Js.undefined ∨ productId = Js.null ∨ productId = Js.str "") →
      getProductDetail baseUrl token transport collection productId fields =
        get baseUrl token transport
          (collectionPath collection ++ "/" ++ encodeURIComponent (jsToString productId))
          (if jsTruthy fields then .cons "fields" (toCommaSeparated fields) .nil else .nil)) ∧
    (∀ baseUrl base token tok transport collection productId fields,
      ¬ (productId = Js.undefined ∨ productId = Js.null ∨ productId = Js.str "") →
      sanitizeBaseUrl baseUrl = some base →
      resolveToken token = .ok tok →
      ∃ c, (getProductDetail baseUrl token transport collection productId fields).calls = [c] ∧
        c.method = "GET" ∧
        c.url = buildUrl base
          (collectionPath collection ++ "/" ++ encodeURIComponent (jsToString productId))
          (if jsTruthy fields then .cons "fields" (toCommaSeparated fields) .nil else .nil)) := by
  refine ⟨?_, ?_, ?_⟩
  · intro baseUrl token transport collection productId fields hv
    rw [getProductDetail, if_pos hv]
  · intro baseUrl token transport collection productId fields hv
    rw [getProductDetail, if_neg hv]
  · intro baseUrl base token tok transport collection productId fields hv hbu htk
    rw [getProductDetail, if_neg hv]
    refine ⟨fetchCallFor base
      (collectionPath collection ++ "/" ++ encodeURIComponent (jsToString productId)) "GET"
      (if jsTruthy fields then .cons "fields" (toCommaSeparated fields) .nil else .nil)
      (.val .undefined) [] tok, ?_, rfl, rfl⟩
    exact request_calls_single baseUrl base token tok transport _ _ _ _ _ hbu htk

theorem C9_getProductDetail_validation_witness :
    getProductDetail (Js.str "http://host") (.value Js.null) (.throws Js.null)
      "Products" Js.undefined Js.undefined =
      { result := .ok (createValidationError "A valid productId is required."
          (.obj (.cons "productId" Js.undefined .nil))), calls := [] } :=
  C9_getProductDetail_validation.1 (Js.str "http://host") (.value Js.null) (.throws Js.null)
    "Products" Js.undefined Js.undefined (Or.inl rfl)

theorem encPair_length_pos (p : String × String) : 0 < (encPair p).length := by
  rw [encPair, String.length_append, String.length_append]
  have h1 : ("=" : String).length = 1 := rfl
  omega

theorem toQueryString_length_pos (p : String × String) (l : List (String × String)) :
    0 < (toQueryString (p :: l)).length := by
  cases l with
  | nil => simpa [toQueryString] using encPair_length_pos p
  | cons q t =>
      have h := encPair_length_pos p
      simp [toQueryString, String.length_append]
      omega

theorem toQueryString_ne_empty (p : String × String) (l : List (String × String)) :
    toQueryString (p :: l) ≠ "" := by
  intro h
  have hp := toQueryString_length_pos p l
  rw [h] at hp
  have h0 : ("" : String).length = 0 := rfl
  omega

theorem toQueryString_cons (p : String × String) (l : List (String × String)) :
    toQueryString (p :: l) = appendParam (encPair p) (toQueryString l) := by
  cases l with
  | nil => simp [toQueryString, appendParam]
  | cons q t =>
      rw [appendParam, if_neg (toQueryString_ne_empty q t)]
      rfl

theorem serializeParams_fieldsAppend : (a b : JsFields) →
    serializeParams (fieldsAppend a b) = serializeParams a ++ serializeParams b
  | .nil, b => by simp [fieldsAppend, serializeParams]
  | .cons k v rest, b => by
      simp [fieldsAppend, serializeParams, serializeParams_fieldsAppend rest b]

theorem appendNested_eq_serializeParams : (k : String) → (fs : JsFields) →
    appendNested k fs = serializeParams (bracketFields k fs)
  | _, .nil => by simp [appendNested, bracketFields, serializeParams]
  | k, .cons k1 v rest => by
      simp [appendNested, bracketFields, serializeParams, appendNested_eq_serializeParams k rest]

/-- C6: `serializeQuery` processes entries in insertion order and never
fails: the empty mapping gives `""`; a `null`/`undefined` value is skipped;
an empty array is skipped (no empty parameter); a non-empty array produces
one parameter whose value is the comma-joined elements, percent-encoded as a
unit; a nested mapping is flattened — recursively, to arbitrary depth — into
bracket-notation composite keys `key[nestedKey]` spliced in place; and any
other (scalar) value produces `key=String(value)`, percent-encoded. -/
theorem C6_serializeQuery_spec :
    (serializeQuery .nil = "") ∧
    (∀ k rest, serializeQuery (.cons k Js.undefined rest) = serializeQuery rest) ∧
    (∀ k rest, serializeQuery (.cons k Js.null rest) = serializeQuery rest) ∧
    (∀ k rest, serializeQuery (.cons k (Js.arr .nil) rest) = serializeQuery rest) ∧
    (∀ k x xs rest, serializeQuery (.cons k (Js.arr (.cons x xs)) rest) =
      appendParam (formEncode k ++ "=" ++ formEncode (jsJoinElems (.cons x xs)))
        (serializeQuery rest)) ∧
    (∀ k fs rest, serializeQuery (.cons k (Js.obj fs) rest) =
      serializeQuery (fieldsAppend (bracketFields k fs) rest)) ∧
    (∀ k v rest, isScalar v = true → serializeQuery (.cons k v rest) =
      appendParam (formEncode k ++ "=" ++ formEncode (jsToString v)) (serializeQuery rest)) := by
  refine ⟨rfl, ?_, ?_, ?_, ?_, ?_, ?_⟩
  · intro k rest
    simp [serializeQuery, serializeParams, appendQueryParam]
  · intro k rest
    simp [serializeQuery, serializeParams, appendQueryParam]
  · intro k rest
    simp [serializeQuery, serializeParams, appendQueryParam]
  · intro k x xs rest
    simp [serializeQuery, serializeParams, appendQueryParam, toQueryString_cons, encPair]
  · intro k fs rest
    simp [serializeQuery, serializeParams, appendQueryParam,
      appendNested_eq_serializeParams, serializeParams_fieldsAppend]
  · intro k v rest hs
    cases v with
    | bool b => simp [serializeQuery, serializeParams, appendQueryParam, toQueryString_cons, encPair]
    | num n => simp [serializeQuery, serializeParams, appendQueryParam, toQueryString_cons, encPair]
    | str s => simp [serializeQuery, serializeParams, appendQueryParam, toQueryString_cons, encPair]
    | undefined => simp [isScalar] at hs
    | null => simp [isScalar] at hs
    | arr xs => simp [isScalar] at hs
    | obj fs => simp [isScalar] at hs

theorem C6_serializeQuery_spec_witness :
    serializeQuery (.cons "limit" (Js.num 10) .nil) =
      appendParam (formEncode "limit" ++ "=" ++ formEncode (jsToString (Js.num 10)))
        (serializeQuery .nil) :=
  C6_serializeQuery_spec.2.2.2.2.2.2 "limit" (Js.num 10) .nil rfl

/-- Ground sanity check: the serializer reproduces the exact query string the
repository's own unit test asserts (client.test.js lines 27-41). -/
theorem serializeQuery_matches_repo_test :
    serializeQuery (.cons "limit" (.num 10)
      (.cons "filter" (.obj (.cons "status" (.obj (.cons "_eq" (.str "published") .nil))
        (.cons "price" (.obj (.cons "_lte" (.num 99) .nil)) .nil)))
      (.cons "fields" (.arr (.cons (.str "id") (.cons (.str "name") .nil))) .nil))) =
    "limit=10&filter%5Bstatus%5D%5B_eq%5D=published&filter%5Bprice%5D%5B_lte%5D=99&fields=id%2Cname" :=
  rfl

end DirectusClient
